import Mathlib

/-!
Shallow embedding of the NoctisPro C++ DICOM viewer core
(src/cpp_viewer/main.cpp): the pixel windowing engine inside
DicomImageWidget::applyWindowLevel and the viewport controller state held
by DicomImageWidget and DicomViewerWindow.

Conventions of the embedding:

* C++ doubles are modelled as rational numbers rounded by fl after every
  arithmetic operation: IEEE binary64 round to nearest, ties to even, at
  53 significant bits, with unbounded exponent — every value the
  windowing chain produces lies far inside the normal double range, so
  overflow and subnormals are unreachable and fl is the exact IEEE
  semantics of the chain.
* QPixmap and QImage values are modelled as 8-bit grayscale images
  (the spec data model GrayscaleImage); a null QPixmap, and a missing
  QGraphicsPixmapItem, are modelled as none.
* The view state inherited from QGraphicsView (the scene transform set by
  scale and fitInView, and the scroll bars moved while panning) is carried
  in explicit fields viewScale, hScroll and vScroll next to the member
  variables of the C++ class.
* The GUI event loop is single threaded; the discrete events the claims
  mention are folded over the window state by runEvents.
-/

namespace NoctisPro

/-- An 8-bit grayscale image: a QImage in Format_Grayscale8. The rows list
holds the scanlines (what scanLine(y) returns), each a list of samples;
width and height mirror the QImage dimension accessors. -/
structure Image where
  width : Nat
  height : Nat
  rows : List (List Nat)
deriving DecidableEq, Repr

/-- Qt qMax on int. -/
def qMax (a b : Int) : Int := max a b

/-- Qt qBound: qBound(lo, v, hi) = qMax(lo, qMin(hi, v)). -/
def qBound (lo v hi : Int) : Int := max lo (min v hi)

/-- The C++ conversion int(d) of a double: truncation toward zero. -/
def cppInt (q : Rat) : Int := if 0 ≤ q then ⌊q⌋ else ⌈q⌉

/-- Round to nearest, ties to even, of a value already scaled so that the
representable doubles sit on the integers: the rounding IEEE 754
prescribes for every inexact operation. -/
def rne (x : Rat) : Int :=
  if Int.fract x < 1 / 2 then ⌊x⌋
  else if 1 / 2 < Int.fract x then ⌊x⌋ + 1
  else if ⌊x⌋ % 2 = 0 then ⌊x⌋ else ⌊x⌋ + 1

/-- The IEEE binary64 (C++ double) rounding of an exact rational value:
round to nearest, ties to even, at 53 significant bits. The exponent is
unbounded: the slopes, products and sums of the windowing chain are far
inside the normal double range, so overflow and subnormals are
unreachable and this is the exact IEEE semantics of those operations. -/
def fl (q : Rat) : Rat :=
  if q = 0 then 0
  else
    (if q < 0 then (-1 : Rat) else 1) *
      ((rne (|q| * (2 : Rat) ^ ((52 : Int) - Int.log 2 |q|)) : Int) : Rat) *
        (2 : Rat) ^ (Int.log 2 |q| - 52)

/-- Loop body of DicomImageWidget::applyWindowLevel (main.cpp 77-80):
int gray = line[x];
double slope = 255.0 / qMax(1, windowWidth);
int newGray = qBound(0, int(slope * (gray - windowCenter) + 127), 255);
line[x] = static_cast of newGray to uchar (newGray is already in 0..255).
Each of the three double operations is rounded by fl: the division
255.0 / qMax(1, windowWidth), the product slope * (gray - windowCenter)
(the inner subtraction is exact int arithmetic, and ints convert to
double exactly), and the addition of 127; int(...) then truncates toward
zero. -/
def windowLevelPixel (windowCenter windowWidth : Int) (gray : Nat) : Nat :=
  let slope : Rat := fl (255 / ((qMax 1 windowWidth : Int) : Rat))
  let newGray : Int :=
    qBound 0 (cppInt (fl (fl (slope * ((gray : Rat) - (windowCenter : Rat))) + 127))) 255
  newGray.toNat

/-- The scanline double loop of applyWindowLevel (main.cpp 74-82): every
sample of every scanline is rewritten by the loop body; dimensions are
carried over unchanged. -/
def windowLevelImage (windowCenter windowWidth : Int) (img : Image) : Image :=
  { img with
    rows := img.rows.map (fun line => line.map (windowLevelPixel windowCenter windowWidth)) }

/-- Transcription of the spec formula exactly as the claim states it:
slope = 255.0 / max(1, width);
output = clamp(round(slope * (input - center) + 127), 0, 255),
with round meaning rounding to the nearest integer. -/
def specRoundPixel (center width : Int) (input : Nat) : Nat :=
  let slope : Rat := 255 / ((max 1 width : Int) : Rat)
  (max 0 (min (round (slope * ((input : Rat) - (center : Rat)) + 127)) 255)).toNat

/-- The ideal per-sample formula of the amended claim: exact rational
arithmetic with the intermediate value truncated toward zero (the C++
int conversion) instead of rounded to the nearest integer. The engine
matches it exactly wherever the three double operations are exact, and
can differ by one elsewhere. -/
def specTruncPixel (center width : Int) (input : Nat) : Nat :=
  let slope : Rat := 255 / ((max 1 width : Int) : Rat)
  (max 0 (min (cppInt (slope * ((input : Rat) - (center : Rat)) + 127)) 255)).toNat

/-- Mouse buttons distinguished by the widget event handlers. -/
inductive MouseButton where
  | middleButton
  | leftButton
  | rightButton
deriving DecidableEq, Repr

/-- Modelled from the spec: the fit-to-viewport scale (glossary entry) that
the Qt call fitInView(rect, KeepAspectRatio) produces — the largest uniform
scale at which the full image is visible in the viewport, preserving aspect
ratio; the accompanying scroll offsets are centered, modelled as 0. The
body of fitInView itself lives in the GUI toolkit, outside src. -/
def fitToViewportScale (viewportW viewportH : Rat) (img : Image) : Rat :=
  min (viewportW / (img.width : Rat)) (viewportH / (img.height : Rat))

/-- State of DicomImageWidget (main.cpp 33-93): the member variables
pixmapItem, currentPixmap, scaleFactor, windowCenter, windowWidth,
isDragging and lastPanPoint, plus the inherited QGraphicsView state
(viewScale for the scene transform, hScroll and vScroll for the scroll
bars, viewportW and viewportH for the fixed viewport geometry). -/
structure DicomImageWidget where
  pixmapItem : Option Image
  currentPixmap : Option Image
  scaleFactor : Rat
  windowCenter : Int
  windowWidth : Int
  isDragging : Bool
  lastPanPoint : Int × Int
  viewScale : Rat
  hScroll : Int
  vScroll : Int
  viewportW : Rat
  viewportH : Rat
deriving DecidableEq, Repr

namespace DicomImageWidget

/-- The widget constructor (main.cpp 36-42): no pixmap yet, scaleFactor 1.0,
windowCenter 128, windowWidth 256, not dragging, identity view transform. -/
def init (vw vh : Rat) : DicomImageWidget :=
  { pixmapItem := none
    currentPixmap := none
    scaleFactor := 1
    windowCenter := 128
    windowWidth := 256
    isDragging := false
    lastPanPoint := (0, 0)
    viewScale := 1
    hScroll := 0
    vScroll := 0
    viewportW := vw
    viewportH := vh }

/-- setDicomImage (main.cpp 43-49): clear the scene, store the pixmap as
currentPixmap, add it as the pixmap item, set the scene rect and fit the
view. The fitInView call is modelled through fitToViewportScale. Nothing
touches windowCenter, windowWidth or scaleFactor. -/
def setDicomImage (pixmap : Image) (st : DicomImageWidget) : DicomImageWidget :=
  { st with
    currentPixmap := some pixmap
    pixmapItem := some pixmap
    viewScale := fitToViewportScale st.viewportW st.viewportH pixmap
    hScroll := 0
    vScroll := 0 }

/-- zoomIn (main.cpp 50): scale(1.25, 1.25); scaleFactor *= 1.25. -/
def zoomIn (st : DicomImageWidget) : DicomImageWidget :=
  { st with
    viewScale := st.viewScale * (5 / 4 : Rat)
    scaleFactor := st.scaleFactor * (5 / 4 : Rat) }

/-- zoomOut (main.cpp 51): scale(0.8, 0.8); scaleFactor *= 0.8. -/
def zoomOut (st : DicomImageWidget) : DicomImageWidget :=
  { st with
    viewScale := st.viewScale * (4 / 5 : Rat)
    scaleFactor := st.scaleFactor * (4 / 5 : Rat) }

/-- applyWindowLevel (main.cpp 71-84): early return when the stored pixmap
is null or no pixmap item exists; otherwise convert the stored original to
grayscale (identity on a grayscale image), run the windowing loop over it
and install the result as the displayed pixmap of the item. The stored
currentPixmap is read, never written. -/
def applyWindowLevel (st : DicomImageWidget) : DicomImageWidget :=
  match st.currentPixmap, st.pixmapItem with
  | some img, some _ =>
      { st with pixmapItem := some (windowLevelImage st.windowCenter st.windowWidth img) }
  | _, _ => st

/-- adjustWindowLevel (main.cpp 53): store both parameters, then run
applyWindowLevel. -/
def adjustWindowLevel (center width : Int) (st : DicomImageWidget) : DicomImageWidget :=
  applyWindowLevel { st with windowCenter := center, windowWidth := width }

/-- wheelEvent (main.cpp 55): zoom in on a positive vertical angle delta,
zoom out otherwise. -/
def wheelEvent (angleDeltaY : Int) (st : DicomImageWidget) : DicomImageWidget :=
  if 0 < angleDeltaY then zoomIn st else zoomOut st

/-- mousePressEvent (main.cpp 56-58): the middle button starts a pan and
remembers the press position. -/
def mousePressEvent (button : MouseButton) (pos : Int × Int) (st : DicomImageWidget) :
    DicomImageWidget :=
  if button = MouseButton.middleButton then
    { st with isDragging := true, lastPanPoint := pos }
  else st

/-- mouseMoveEvent (main.cpp 59-66): while dragging, move both scroll bars
by the negated delta from the last pan point and remember the new point. -/
def mouseMoveEvent (pos : Int × Int) (st : DicomImageWidget) : DicomImageWidget :=
  if st.isDragging then
    { st with
      hScroll := st.hScroll - (pos.1 - st.lastPanPoint.1)
      vScroll := st.vScroll - (pos.2 - st.lastPanPoint.2)
      lastPanPoint := pos }
  else st

/-- mouseReleaseEvent (main.cpp 67-69): the middle button ends the pan. -/
def mouseReleaseEvent (button : MouseButton) (st : DicomImageWidget) : DicomImageWidget :=
  if button = MouseButton.middleButton then { st with isDragging := false } else st

end DicomImageWidget

/-- One worklist entry as read by processWorklistResponse (main.cpp 212). -/
structure WorklistEntry where
  patient_name : String
  study_description : String
  dicom_path : String
deriving DecidableEq, Repr

/-- State of DicomViewerWindow (main.cpp 95-237) restricted to what the
claims touch: the image widget, the status label, the progress bar
visibility, the series list labels and the series path list. -/
structure DicomViewerWindow where
  imageWidget : DicomImageWidget
  statusLabel : String
  progressBarVisible : Bool
  seriesItems : List String
  currentSeries : List String
deriving DecidableEq, Repr

namespace DicomViewerWindow

/-- The window after setupUI (main.cpp 130-155): status label Ready, empty
series list, hidden progress bar. -/
def init (vw vh : Rat) : DicomViewerWindow :=
  { imageWidget := DicomImageWidget.init vw vh
    statusLabel := "Ready"
    progressBarVisible := false
    seriesItems := []
    currentSeries := [] }

/-- loadDicomFile (main.cpp 188-204), branch without DCMTK: decoding is
performed synchronously inside the call by the QPixmap constructor,
modelled by the decode argument. A null pixmap (missing, empty,
zero-dimension or undecodable file) leaves the image widget untouched and
only sets the status label; a decoded pixmap is handed to setDicomImage.
The progress bar is shown at entry and hidden again before returning. -/
def loadDicomFile (decode : String → Option Image) (path : String)
    (st : DicomViewerWindow) : DicomViewerWindow :=
  match decode path with
  | some pix =>
      { st with
        imageWidget := DicomImageWidget.setDicomImage pix st.imageWidget
        statusLabel := "Image loaded (not DICOM processed)"
        progressBarVisible := false }
  | none =>
      { st with
        statusLabel := "Error: Cannot load file"
        progressBarVisible := false }

/-- processWorklistResponse (main.cpp 206-220) on an already parsed JSON
array: the series lists are cleared and refilled from the entries and the
status label reports the new count. The raw JSON byte parsing belongs to
the excluded worklist collaborator and is modelled as already done. -/
def processWorklistResponse (entries : List WorklistEntry) (st : DicomViewerWindow) :
    DicomViewerWindow :=
  { st with
    seriesItems := entries.map (fun e => e.patient_name ++ " - " ++ e.study_description)
    currentSeries := entries.map (fun e => e.dicom_path)
    statusLabel := "Worklist updated: " ++ toString entries.length ++ " items" }

/-- The finished handler connected in refreshWorklist (main.cpp 117-121):
on a network error only the status label changes; otherwise the reply body
is handed to processWorklistResponse. No generation counter or request
identifier is consulted anywhere: every finished reply is applied, in
arrival order. -/
def onWorklistFinished (result : Except String (List WorklistEntry))
    (st : DicomViewerWindow) : DicomViewerWindow :=
  match result with
  | Except.ok entries => processWorklistResponse entries st
  | Except.error msg => { st with statusLabel := "Error fetching worklist: " ++ msg }

end DicomViewerWindow

/-- Discrete events consumed by the single-threaded GUI event loop: a load
request (processed synchronously by loadDicomFile) and the arrival of a
finished worklist reply. -/
inductive ViewerEvent where
  | loadRequest (path : String)
  | worklistFinished (result : Except String (List WorklistEntry))

/-- Dispatch of one event on the window state. -/
def step (decode : String → Option Image) (e : ViewerEvent) (st : DicomViewerWindow) :
    DicomViewerWindow :=
  match e with
  | ViewerEvent.loadRequest path => DicomViewerWindow.loadDicomFile decode path st
  | ViewerEvent.worklistFinished result => DicomViewerWindow.onWorklistFinished result st

/-- The event loop processes events to completion, one at a time, in
arrival order. -/
def runEvents (decode : String → Option Image) (events : List ViewerEvent)
    (st : DicomViewerWindow) : DicomViewerWindow :=
  events.foldl (fun s e => step decode e s) st

/-- Modelled from the spec: the view transform a QGraphicsView maintains —
a uniform scale composed with a pan offset, sending the scene point q to
the viewport point scale * q + pan, componentwise. -/
structure ViewTransform where
  scale : Rat
  panX : Rat
  panY : Rat
deriving DecidableEq, Repr

/-- Modelled from the spec: scale(k, k) under the AnchorUnderMouse setting
(main.cpp 41), whose implementation lives in the GUI toolkit: the scale is
multiplied by k and the pan is readjusted so that the viewport point
(px, py) keeps showing the scene point it showed before. -/
def anchoredScale (k px py : Rat) (t : ViewTransform) : ViewTransform :=
  { scale := t.scale * k
    panX := px - k * (px - t.panX)
    panY := py - k * (py - t.panY) }

/-- Scene x coordinate shown at viewport x coordinate px. -/
def sceneAtX (px : Rat) (t : ViewTransform) : Rat := (px - t.panX) / t.scale

/-- Scene y coordinate shown at viewport y coordinate py. -/
def sceneAtY (py : Rat) (t : ViewTransform) : Rat := (py - t.panY) / t.scale

/-- A concrete 2 by 2 grayscale image used by the closed theorems. -/
def testImg : Image :=
  { width := 2, height := 2, rows := [[0, 36], [72, 255]] }

/-- Concrete worklist entry of an older request. -/
def entryA : WorklistEntry :=
  { patient_name := "Alice", study_description := "CT Head", dicom_path := "study_a.dcm" }

/-- Concrete worklist entry of a newer request. -/
def entryB : WorklistEntry :=
  { patient_name := "Bob", study_description := "MR Knee", dicom_path := "study_b.dcm" }

/-- Concrete file paths used by the closed theorems. -/
def pathA : String := "a.dcm"

/-- Second concrete file path. -/
def pathB : String := "b.dcm"

/-- Concrete path of a file that fails to decode. -/
def missingPath : String := "missing.dcm"

end NoctisPro

namespace NoctisPro

/-- Evaluation form of the windowing loop body. -/
lemma windowLevelPixel_eval (center width : Int) (g : Nat) :
    windowLevelPixel center width g =
      (qBound 0
        (cppInt (fl (fl (fl (255 / ((qMax 1 width : Int) : Rat)) *
          ((g : Rat) - (center : Rat))) + 127)))
        255).toNat := rfl

/-- Evaluation form of the literal spec formula. -/
lemma specRoundPixel_eval (center width : Int) (g : Nat) :
    specRoundPixel center width g =
      (max 0
        (min (round (255 / ((max 1 width : Int) : Rat) * ((g : Rat) - (center : Rat)) + 127))
          255)).toNat := rfl

/-- Evaluation form of the ideal truncating formula. -/
lemma specTruncPixel_eval (center width : Int) (g : Nat) :
    specTruncPixel center width g =
      (max 0
        (min (cppInt (255 / ((max 1 width : Int) : Rat) * ((g : Rat) - (center : Rat)) + 127))
          255)).toNat := rfl

/-- rne is the identity on integers: a value that is already representable
is not moved by the rounding. -/
lemma rne_intCast (z : Int) : rne (z : Rat) = z := by
  rw [rne, Int.fract_intCast]
  rw [if_pos (by norm_num : (0 : Rat) < 1 / 2)]
  exact Int.floor_intCast z

/-- fl maps zero to zero. -/
lemma fl_zero : fl 0 = 0 := by simp [fl]

/-- The binary exponent is characterized by its two power bounds. -/
lemma log2_eq_of_bounds {r : Rat} {e : Int} (h0 : 0 < r)
    (h1 : (2 : Rat) ^ e ≤ r) (h2 : r < (2 : Rat) ^ (e + 1)) : Int.log 2 r = e := by
  have hle : e ≤ Int.log 2 r := (Int.zpow_le_iff_le_log (by norm_num) h0).mp (by exact_mod_cast h1)
  have hlt : Int.log 2 r < e + 1 :=
    (Int.lt_zpow_iff_log_lt (by norm_num) h0).mp (by exact_mod_cast h2)
  omega

/-- fl is the identity on nonzero dyadic rationals with at most 53
significant bits: every exactly representable double is left unchanged by
the rounding. -/
lemma fl_dyadic {n t : Int} (hn : n ≠ 0) (hlt : |n| < 2 ^ 53) :
    fl ((n : Rat) * (2 : Rat) ^ t) = (n : Rat) * (2 : Rat) ^ t := by
  have h2 : (0 : Rat) < 2 := by norm_num
  have hq0 : (n : Rat) * (2 : Rat) ^ t ≠ 0 :=
    mul_ne_zero (Int.cast_ne_zero.mpr hn) (zpow_ne_zero t (by norm_num))
  have habs : |(n : Rat) * (2 : Rat) ^ t| = ((|n| : Int) : Rat) * (2 : Rat) ^ t := by
    rw [abs_mul, ← Int.cast_abs, abs_of_pos (zpow_pos h2 t)]
  have hqpos : 0 < |(n : Rat) * (2 : Rat) ^ t| := abs_pos.mpr hq0
  set e := Int.log 2 |(n : Rat) * (2 : Rat) ^ t| with hE
  have hupper : |(n : Rat) * (2 : Rat) ^ t| < (2 : Rat) ^ (53 + t) := by
    rw [habs]
    have hcast : ((|n| : Int) : Rat) < (2 : Rat) ^ (53 : Int) := by
      rw [show ((53 : Int)) = ((53 : Nat) : Int) from rfl, zpow_natCast]
      exact_mod_cast hlt
    calc ((|n| : Int) : Rat) * (2 : Rat) ^ t
        < (2 : Rat) ^ (53 : Int) * (2 : Rat) ^ t :=
          mul_lt_mul_of_pos_right hcast (zpow_pos h2 t)
      _ = (2 : Rat) ^ (53 + t) := (zpow_add₀ (by norm_num) 53 t).symm
  have he : e < 53 + t :=
    (Int.lt_zpow_iff_log_lt (by norm_num) hqpos).mp (by exact_mod_cast hupper)
  have hcastmul : ((|n| * 2 ^ (t + 52 - e).toNat : Int) : Rat) =
      ((|n| : Int) : Rat) * (2 : Rat) ^ (((t + 52 - e).toNat : Int)) := by
    push_cast [zpow_natCast]
    ring
  have hscaled : |(n : Rat) * (2 : Rat) ^ t| * (2 : Rat) ^ ((52 : Int) - e) =
      ((|n| * 2 ^ (t + 52 - e).toNat : Int) : Rat) := by
    rw [habs, hcastmul, mul_assoc, ← zpow_add₀ (by norm_num : (2 : Rat) ≠ 0),
      show t + ((52 : Int) - e) = (((t + 52 - e).toNat : Int)) from by omega]
  have hsign : (if (n : Rat) * (2 : Rat) ^ t < 0 then (-1 : Rat) else 1) * ((|n| : Int) : Rat) =
      (n : Rat) := by
    rcases lt_or_gt_of_ne hn with hneg | hpos
    · rw [if_pos (mul_neg_of_neg_of_pos (by exact_mod_cast hneg) (zpow_pos h2 t)),
        abs_of_neg hneg]
      push_cast
      ring
    · rw [if_neg (not_lt.mpr (le_of_lt (mul_pos (by exact_mod_cast hpos) (zpow_pos h2 t)))),
        abs_of_pos hpos]
      ring
  have hsplit : (if (n : Rat) * (2 : Rat) ^ t < 0 then (-1 : Rat) else 1) *
      (((|n| : Int) : Rat) * (2 : Rat) ^ (((t + 52 - e).toNat : Int))) * (2 : Rat) ^ (e - 52) =
      ((if (n : Rat) * (2 : Rat) ^ t < 0 then (-1 : Rat) else 1) * ((|n| : Int) : Rat)) *
        ((2 : Rat) ^ (((t + 52 - e).toNat : Int)) * (2 : Rat) ^ (e - 52)) := by
    ring
  rw [fl, if_neg hq0, ← hE, hscaled, rne_intCast, hcastmul, hsplit, hsign,
    ← zpow_add₀ (by norm_num : (2 : Rat) ≠ 0),
    show (((t + 52 - e).toNat : Int)) + (e - 52) = t from by omega]

/-- Evaluation of rne when the fractional part exceeds one half. -/
lemma rne_eval_up {x : Rat} {f : Int} (hf : ⌊x⌋ = f) (hhalf : 1 / 2 < x - (f : Rat)) :
    rne x = f + 1 := by
  have hfr : Int.fract x = x - (f : Rat) := by rw [Int.fract, hf]
  rw [rne, hfr, if_neg (not_lt.mpr (le_of_lt hhalf)), if_pos hhalf, hf]

/-- Evaluation of fl at a positive value with known exponent and rounded
mantissa. -/
lemma fl_eval_pos {q : Rat} {e m : Int} (hq : 0 < q)
    (he1 : (2 : Rat) ^ e ≤ q) (he2 : q < (2 : Rat) ^ (e + 1))
    (hm : rne (q * (2 : Rat) ^ ((52 : Int) - e)) = m) :
    fl q = (m : Rat) * (2 : Rat) ^ (e - 52) := by
  have hE : Int.log 2 |q| = e := by
    rw [abs_of_pos hq]
    exact log2_eq_of_bounds hq he1 he2
  rw [fl, if_neg (ne_of_gt hq), if_neg (not_lt.mpr (le_of_lt hq)), hE, abs_of_pos hq, hm,
    one_mul]

/-- Evaluation of fl at a negative value with known exponent and rounded
mantissa. -/
lemma fl_eval_neg {q : Rat} {e m : Int} (hq : q < 0)
    (he1 : (2 : Rat) ^ e ≤ -q) (he2 : -q < (2 : Rat) ^ (e + 1))
    (hm : rne (-q * (2 : Rat) ^ ((52 : Int) - e)) = m) :
    fl q = -((m : Rat) * (2 : Rat) ^ (e - 52)) := by
  have hE : Int.log 2 |q| = e := by
    rw [abs_of_neg hq]
    exact log2_eq_of_bounds (by linarith) he1 he2
  rw [fl, if_neg (ne_of_lt hq), if_pos hq, hE, abs_of_neg hq, hm]
  ring

/-- The default slope 255/256 is an exactly representable double. -/
lemma fl_255_div_256 : fl ((255 : Rat) / 256) = 255 / 256 := by
  have h : (255 : Rat) / 256 = ((255 : Int) : Rat) * (2 : Rat) ^ (-8 : Int) := by
    rw [show ((2 : Rat) ^ (-8 : Int)) = 1 / 256 by norm_num]
    norm_num
  rw [h]
  exact fl_dyadic (by norm_num) (by norm_num)

/-- At width 256 the product is exact: 255 * d / 256 has a 20-bit odd part
for slider-range differences d, well under the 53 significant bits. -/
lemma fl_mul_diff_256 {d : Int} (h1 : -3255 ≤ d) (h2 : d ≤ 3255) :
    fl ((255 / 256 : Rat) * (d : Rat)) = 255 / 256 * (d : Rat) := by
  by_cases h0 : d = 0
  · subst h0
    norm_num [fl_zero]
  · have hrepr : (255 / 256 : Rat) * (d : Rat) =
        ((255 * d : Int) : Rat) * (2 : Rat) ^ (-8 : Int) := by
      rw [show ((2 : Rat) ^ (-8 : Int)) = 1 / 256 by norm_num]
      push_cast
      ring
    have hn : 255 * d ≠ 0 := by omega
    have hb : |255 * d| < 2 ^ 53 := by
      rw [show ((2 : Int) ^ 53) = 9007199254740992 by norm_num, abs_lt]
      omega
    rw [hrepr]
    exact fl_dyadic hn hb

/-- At width 256 the final addition is exact as well. -/
lemma fl_add_127_256 {d : Int} (h1 : -3255 ≤ d) (h2 : d ≤ 3255) :
    fl ((255 / 256 : Rat) * (d : Rat) + 127) = 255 / 256 * (d : Rat) + 127 := by
  have hrepr : (255 / 256 : Rat) * (d : Rat) + 127 =
      ((255 * d + 32512 : Int) : Rat) * (2 : Rat) ^ (-8 : Int) := by
    rw [show ((2 : Rat) ^ (-8 : Int)) = 1 / 256 by norm_num]
    push_cast
    ring
  have hn : 255 * d + 32512 ≠ 0 := by omega
  have hb : |255 * d + 32512| < 2 ^ 53 := by
    rw [show ((2 : Int) ^ 53) = 9007199254740992 by norm_num, abs_lt]
    omega
  rw [hrepr]
  exact fl_dyadic hn hb

/-- At the default width 256 and a slider-range center, all three double
operations of the loop body are exact, so the engine coincides with the
ideal truncating formula. -/
lemma windowLevelPixel_exact_256 (center : Int) (g : Nat)
    (hc1 : -3000 ≤ center) (hc2 : center ≤ 3000) (hg : g ≤ 255) :
    windowLevelPixel center 256 g = specTruncPixel center 256 g := by
  have hg0 : (0 : Int) ≤ (g : Int) := Int.natCast_nonneg g
  have hg255 : (g : Int) ≤ 255 := by exact_mod_cast hg
  have hd1 : -3255 ≤ (g : Int) - center := by omega
  have hd2 : (g : Int) - center ≤ 3255 := by omega
  have hdiff : ((g : Rat) - (center : Rat)) = (((g : Int) - center : Int) : Rat) := by
    push_cast
    ring
  rw [windowLevelPixel_eval, specTruncPixel_eval,
    show ((qMax 1 (256 : Int) : Int) : Rat) = 256 from by norm_num [qMax],
    show ((max 1 (256 : Int) : Int) : Rat) = 256 from by norm_num,
    fl_255_div_256, hdiff, fl_mul_diff_256 hd1 hd2, fl_add_127_256 hd1 hd2]
  rfl

/-- IEEE evaluation of the loop body at center 67, width 201, input 0:
the slope 255/201 rounds up by one ulp, the product lands one ulp below
-85, the sum is one ulp below 42, and the truncation returns 41. -/
lemma windowLevelPixel_67_201_0 : windowLevelPixel 67 201 0 = 41 := by
  have hslope : fl ((255 : Rat) / ((qMax 1 (201 : Int) : Int) : Rat)) =
      5713521915320779 / 4503599627370496 := by
    rw [show ((qMax 1 (201 : Int) : Int) : Rat) = 201 from by norm_num [qMax]]
    have h := fl_eval_pos (q := (255 : Rat) / 201) (e := 0) (m := 5713521915320779)
      (by norm_num) (by norm_num) (by norm_num)
      (by
        have hf : ⌊(255 / 201 : Rat) * (2 : Rat) ^ ((52 : Int) - 0)⌋ = 5713521915320778 := by
          norm_num [Int.floor_eq_iff]
        exact (rne_eval_up hf (by norm_num)).trans (by norm_num))
    rw [h]
    norm_num
  have hprod : fl ((5713521915320779 / 4503599627370496 : Rat) *
      (((0 : Nat) : Rat) - ((67 : Int) : Rat))) =
      -(5981343255101441 / 70368744177664 : Rat) := by
    rw [show ((5713521915320779 / 4503599627370496 : Rat) *
        (((0 : Nat) : Rat) - ((67 : Int) : Rat))) =
        -(382805968326492193 / 4503599627370496 : Rat) from by norm_num]
    have h := fl_eval_neg (q := -(382805968326492193 / 4503599627370496 : Rat)) (e := 6)
      (m := 5981343255101441)
      (by norm_num) (by norm_num) (by norm_num)
      (by
        have hf : ⌊(382805968326492193 / 4503599627370496 : Rat) *
            (2 : Rat) ^ ((52 : Int) - 6)⌋ = 5981343255101440 := by
          norm_num [Int.floor_eq_iff]
        rw [neg_neg]
        exact (rne_eval_up hf (by norm_num)).trans (by norm_num))
    rw [h]
    norm_num
  have hsum : fl (-(5981343255101441 / 70368744177664 : Rat) + 127) =
      2955487255461887 / 70368744177664 := by
    have hrepr : -(5981343255101441 / 70368744177664 : Rat) + 127 =
        ((2955487255461887 : Int) : Rat) * (2 : Rat) ^ (-46 : Int) := by
      rw [show ((2 : Rat) ^ (-46 : Int)) = 1 / 70368744177664 by norm_num]
      norm_num
    rw [hrepr, fl_dyadic (by norm_num) (by norm_num),
      show ((2 : Rat) ^ (-46 : Int)) = 1 / 70368744177664 by norm_num]
    norm_num
  have hcpp : cppInt (2955487255461887 / 70368744177664 : Rat) = 41 := by
    rw [cppInt, if_pos (by norm_num)]
    norm_num [Int.floor_eq_iff]
  rw [windowLevelPixel_eval, hslope, hprod, hsum, hcpp]
  decide

/-- The ideal truncating formula at the same point gives 42: the slope
times -67 is exactly -85 there (201 = 3 * 67), so the ideal sum is the
integer 42. -/
lemma specTruncPixel_67_201_0 : specTruncPixel 67 201 0 = 42 := by
  rw [specTruncPixel_eval,
    show ((max 1 (201 : Int) : Int) : Rat) = 201 from by norm_num,
    show ((255 : Rat) / 201 * (((0 : Nat) : Rat) - ((67 : Int) : Rat)) + 127) = 42 from by
      norm_num,
    show cppInt (42 : Rat) = 42 from by
      rw [cppInt, if_pos (by norm_num)]
      norm_num [Int.floor_eq_iff]]
  decide

/-- C1: counterexample — at input 1, center 0, width 256 every double in
the chain is exact, the intermediate value is 32767/256 = 127.996..., and
the code truncates it to 127 while the claimed formula rounds it to
128. -/
theorem c1_round_counterexample :
    windowLevelPixel 0 256 1 = 127 ∧ specRoundPixel 0 256 1 = 128 ∧
    windowLevelPixel 0 256 1 ≠ specRoundPixel 0 256 1 := by
  have hx : windowLevelPixel 0 256 1 = specTruncPixel 0 256 1 :=
    windowLevelPixel_exact_256 0 1 (by norm_num) (by norm_num) (by norm_num)
  have h1 : specTruncPixel 0 256 1 = 127 := by
    rw [specTruncPixel_eval,
      show ((max 1 (256 : Int) : Int) : Rat) = 256 from by norm_num,
      show ((255 : Rat) / 256 * (((1 : Nat) : Rat) - ((0 : Int) : Rat)) + 127) = 32767 / 256
        from by norm_num,
      show cppInt (32767 / 256 : Rat) = 127 from by
        rw [cppInt, if_pos (by norm_num)]
        norm_num [Int.floor_eq_iff]]
    decide
  have h2 : specRoundPixel 0 256 1 = 128 := by
    rw [specRoundPixel_eval,
      show ((max 1 (256 : Int) : Int) : Rat) = 256 from by norm_num,
      show ((255 : Rat) / 256 * (((1 : Nat) : Rat) - ((0 : Int) : Rat)) + 127) = 32767 / 256
        from by norm_num,
      show round (32767 / 256 : Rat) = 128 from by norm_num [round_eq, Int.floor_eq_iff]]
    decide
  refine ⟨hx.trans h1, h2, ?_⟩
  rw [hx, h1, h2]
  decide

/-- C1 (amended): each output sample is clamp(trunc(u), 0, 255) where u is
the IEEE double evaluation of slope * (input - center) + 127 with slope
the double quotient 255 / max(1, width), and trunc is truncation toward
zero, not rounding to the nearest integer. Wherever the three double
operations are exact — in particular at the default width 256 for every
input and every slider-range center — this coincides with the ideal
formula clamp(trunc(255 / max(1, width) * (input - center) + 127), 0,
255); in general the rounded evaluation can differ from the ideal
formula: at center 67, width 201, input 0 the engine yields 41 while the
ideal formula yields 42. -/
theorem c1_trunc_on_exact_doubles :
    (∀ (center : Int) (g : Nat), -3000 ≤ center → center ≤ 3000 → g ≤ 255 →
      windowLevelPixel center 256 g = specTruncPixel center 256 g) ∧
    windowLevelPixel 67 201 0 = 41 ∧ specTruncPixel 67 201 0 = 42 :=
  ⟨fun center g hc1 hc2 hg => windowLevelPixel_exact_256 center g hc1 hc2 hg,
    windowLevelPixel_67_201_0, specTruncPixel_67_201_0⟩

/-- Closed instance of c1_trunc_on_exact_doubles at center -1000, input
255, together with its concrete divergence point. -/
theorem c1_trunc_on_exact_doubles_witness :
    windowLevelPixel (-1000) 256 255 = specTruncPixel (-1000) 256 255 ∧
    windowLevelPixel 67 201 0 = 41 ∧ specTruncPixel 67 201 0 = 42 := by
  have h := c1_trunc_on_exact_doubles
  exact ⟨h.1 (-1000) 255 (by decide) (by decide) (by decide), h.2⟩

/-- Re-running adjustWindowLevel with the same parameters is the identity
on an already adjusted state: the windowed buffer is always recomputed
from the untouched currentPixmap. -/
lemma adjustWindowLevel_idem (center width : Int) (st : DicomImageWidget) :
    DicomImageWidget.adjustWindowLevel center width
        (DicomImageWidget.adjustWindowLevel center width st) =
      DicomImageWidget.adjustWindowLevel center width st := by
  cases hc : st.currentPixmap <;> cases hp : st.pixmapItem <;>
    simp [DicomImageWidget.adjustWindowLevel, DicomImageWidget.applyWindowLevel, hc, hp]

/-- C2: the displayed buffer is a pure function of the stored original and
the parameters — applying the same (center, width) any number of times
leaves the state byte-identical to applying it once, and whenever an image
is loaded the displayed buffer equals the windowing of the untouched
original, never of a previously windowed buffer. -/
theorem c2_pure_windowing (st : DicomImageWidget) (center width : Int) :
    (∀ n : Nat,
      (fun s => DicomImageWidget.adjustWindowLevel center width s)^[n + 1] st =
        DicomImageWidget.adjustWindowLevel center width st) ∧
    (∀ img : Image, st.currentPixmap = some img → st.pixmapItem.isSome = true →
      (DicomImageWidget.adjustWindowLevel center width st).pixmapItem =
        some (windowLevelImage center width img)) := by
  constructor
  · intro n
    induction n with
    | zero => simp
    | succ k ih =>
        rw [Function.iterate_succ_apply', ih]
        exact adjustWindowLevel_idem center width st
  · intro img hc hp
    obtain ⟨item, hitem⟩ := Option.isSome_iff_exists.mp hp
    simp [DicomImageWidget.adjustWindowLevel, DicomImageWidget.applyWindowLevel, hc, hitem]

/-- Closed instance of c2_pure_windowing on a loaded 2 by 2 image. -/
theorem c2_pure_windowing_witness :
    (fun s => DicomImageWidget.adjustWindowLevel 90 300 s)^[2 + 1]
        (DicomImageWidget.setDicomImage testImg (DicomImageWidget.init 640 480)) =
      DicomImageWidget.adjustWindowLevel 90 300
        (DicomImageWidget.setDicomImage testImg (DicomImageWidget.init 640 480)) ∧
    (DicomImageWidget.adjustWindowLevel 90 300
        (DicomImageWidget.setDicomImage testImg (DicomImageWidget.init 640 480))).pixmapItem =
      some (windowLevelImage 90 300 testImg) := by
  have h := c2_pure_windowing
    (DicomImageWidget.setDicomImage testImg (DicomImageWidget.init 640 480)) 90 300
  exact ⟨h.1 2, h.2 testImg rfl rfl⟩

/-- A widget state that adjusted the parameters to (50, 10) and then
loaded a new image. -/
def loadedAfterAdjust : DicomImageWidget :=
  DicomImageWidget.setDicomImage testImg
    (DicomImageWidget.adjustWindowLevel 50 10 (DicomImageWidget.init 640 480))

/-- C3: counterexample — setDicomImage does not reset the window/level
parameters: after adjusting them to (50, 10) and loading a new image they
are still (50, 10), not the claimed defaults (128, 256). -/
theorem c3_load_counterexample :
    loadedAfterAdjust.windowCenter = 50 ∧ loadedAfterAdjust.windowWidth = 10 ∧
    ¬ (loadedAfterAdjust.windowCenter = 128 ∧ loadedAfterAdjust.windowWidth = 256) := by
  refine ⟨rfl, rfl, ?_⟩
  intro hcontra
  have h50 : (50 : Int) = 128 := hcontra.1
  exact absurd h50 (by decide)

/-- C3 (amended): whenever a new image is loaded via setDicomImage, the
view transform is reset to fit-to-viewport (with centered scroll) and the
loaded pixmap becomes both the stored original and the displayed item, but
the window/level parameters and the scaleFactor member keep their previous
values; the defaults center=128, width=256 are set only by the
constructor. -/
theorem c3_load_resets_view_not_params (st : DicomImageWidget) (pixmap : Image)
    (vw vh : Rat) :
    (DicomImageWidget.setDicomImage pixmap st).windowCenter = st.windowCenter ∧
    (DicomImageWidget.setDicomImage pixmap st).windowWidth = st.windowWidth ∧
    (DicomImageWidget.setDicomImage pixmap st).scaleFactor = st.scaleFactor ∧
    (DicomImageWidget.setDicomImage pixmap st).currentPixmap = some pixmap ∧
    (DicomImageWidget.setDicomImage pixmap st).pixmapItem = some pixmap ∧
    (DicomImageWidget.setDicomImage pixmap st).viewScale =
      fitToViewportScale st.viewportW st.viewportH pixmap ∧
    (DicomImageWidget.setDicomImage pixmap st).hScroll = 0 ∧
    (DicomImageWidget.setDicomImage pixmap st).vScroll = 0 ∧
    (DicomImageWidget.init vw vh).windowCenter = 128 ∧
    (DicomImageWidget.init vw vh).windowWidth = 256 :=
  ⟨rfl, rfl, rfl, rfl, rfl, rfl, rfl, rfl, rfl, rfl⟩

/-- C4: counterexample — there is no generation counter or request
identifier anywhere: worklist replies are applied in arrival order, so
when the reply of the newer request arrives first and the stale reply of
the older request arrives second, the stale content overwrites the newer
one instead of being discarded. -/
theorem c4_stale_reply_counterexample :
    (runEvents (fun _ => none)
        [ViewerEvent.worklistFinished (Except.ok [entryB]),
         ViewerEvent.worklistFinished (Except.ok [entryA])]
        (DicomViewerWindow.init 640 480)).currentSeries = [entryA.dicom_path] ∧
    entryA.dicom_path ≠ entryB.dicom_path := by
  refine ⟨rfl, ?_⟩
  decide

/-- C4 (amended): image decoding happens synchronously inside
loadDicomFile, so a decode completion can never arrive after a newer
request and the displayed image after loadImage(A) then loadImage(B) is
the one B decoded to; the asynchronous worklist fetch, however, has no
stale-completion keying: finished replies are applied in arrival order,
the last arrival winning regardless of which request it answers. -/
theorem c4_sequential_loads (decode : String → Option Image) (st : DicomViewerWindow)
    (pA pB : String) (imgB : Image) (hB : decode pB = some imgB) :
    (runEvents decode [ViewerEvent.loadRequest pA, ViewerEvent.loadRequest pB]
        st).imageWidget.pixmapItem = some imgB ∧
    (runEvents decode [ViewerEvent.loadRequest pA, ViewerEvent.loadRequest pB]
        st).imageWidget.currentPixmap = some imgB ∧
    (∀ e1 e2 : List WorklistEntry,
      (runEvents decode
          [ViewerEvent.worklistFinished (Except.ok e1),
           ViewerEvent.worklistFinished (Except.ok e2)] st).currentSeries =
        e2.map (fun e => e.dicom_path)) := by
  refine ⟨?_, ?_, ?_⟩
  · cases hA : decode pA <;>
      simp [runEvents, step, DicomViewerWindow.loadDicomFile, hA, hB,
        DicomImageWidget.setDicomImage]
  · cases hA : decode pA <;>
      simp [runEvents, step, DicomViewerWindow.loadDicomFile, hA, hB,
        DicomImageWidget.setDicomImage]
  · intro e1 e2
    simp [runEvents, step, DicomViewerWindow.onWorklistFinished,
      DicomViewerWindow.processWorklistResponse]

/-- Closed instance of c4_sequential_loads with concrete paths, a concrete
decoder and concrete worklist entries. -/
theorem c4_sequential_loads_witness :
    (runEvents (fun _ => some testImg)
        [ViewerEvent.loadRequest pathA, ViewerEvent.loadRequest pathB]
        (DicomViewerWindow.init 640 480)).imageWidget.pixmapItem = some testImg ∧
    (runEvents (fun _ => some testImg)
        [ViewerEvent.loadRequest pathA, ViewerEvent.loadRequest pathB]
        (DicomViewerWindow.init 640 480)).imageWidget.currentPixmap = some testImg ∧
    (runEvents (fun _ => some testImg)
        [ViewerEvent.worklistFinished (Except.ok [entryA]),
         ViewerEvent.worklistFinished (Except.ok [entryB])]
        (DicomViewerWindow.init 640 480)).currentSeries =
      [entryB].map (fun e => e.dicom_path) := by
  have h := c4_sequential_loads (fun _ => some testImg) (DicomViewerWindow.init 640 480)
    pathA pathB testImg rfl
  exact ⟨h.1, h.2.1, h.2.2 [entryA] [entryB]⟩

/-- Any width at most 1 is clamped to 1 by qMax before the slope division. -/
lemma windowLevelPixel_width_clamped (center : Int) {width : Int} (h : width ≤ 1) (g : Nat) :
    windowLevelPixel center width g = windowLevelPixel center 1 g := by
  simp only [windowLevelPixel, qMax, max_eq_left h, max_self]

/-- Every output sample of the loop body is a well-formed byte. -/
lemma windowLevelPixel_le (center width : Int) (g : Nat) :
    windowLevelPixel center width g ≤ 255 := by
  simp only [windowLevelPixel, qBound]
  refine Int.toNat_le.mpr ?_
  push_cast
  exact max_le (by norm_num) (min_le_right _ _)

/-- C5: a supplied width below 1 (width = 0 included) is clamped to 1
before the slope is computed, so the windowed image equals the one
computed at width 1, the division is never by zero or a negative number,
and every output sample is a well-formed byte; no error path exists. -/
theorem c5_width_clamped (center width : Int) (img : Image) (g : Nat) (h : width < 1) :
    windowLevelImage center width img = windowLevelImage center 1 img ∧
    windowLevelPixel center width g ≤ 255 := by
  constructor
  · have hf : windowLevelPixel center width = windowLevelPixel center 1 :=
      funext (windowLevelPixel_width_clamped center (le_of_lt h))
    unfold windowLevelImage
    rw [hf]
  · exact windowLevelPixel_le center width g

/-- Closed instance of c5_width_clamped at width 0. -/
theorem c5_width_clamped_witness :
    windowLevelImage 0 0 testImg = windowLevelImage 0 1 testImg ∧
    windowLevelPixel 0 0 200 ≤ 255 :=
  c5_width_clamped 0 0 testImg 200 (by decide)

/-- C6: the view transform and the window/level parameters are
independent — adjustWindowLevel never changes the zoom scale or the pan
offset, and the zoom and pan operations never change (center, width) or
the displayed windowed buffer. -/
theorem c6_transform_params_independent (st : DicomImageWidget) (center width : Int)
    (pos : Int × Int) (button : MouseButton) :
    (DicomImageWidget.adjustWindowLevel center width st).scaleFactor = st.scaleFactor ∧
    (DicomImageWidget.adjustWindowLevel center width st).viewScale = st.viewScale ∧
    (DicomImageWidget.adjustWindowLevel center width st).hScroll = st.hScroll ∧
    (DicomImageWidget.adjustWindowLevel center width st).vScroll = st.vScroll ∧
    (DicomImageWidget.zoomIn st).windowCenter = st.windowCenter ∧
    (DicomImageWidget.zoomIn st).windowWidth = st.windowWidth ∧
    (DicomImageWidget.zoomIn st).pixmapItem = st.pixmapItem ∧
    (DicomImageWidget.zoomOut st).windowCenter = st.windowCenter ∧
    (DicomImageWidget.zoomOut st).windowWidth = st.windowWidth ∧
    (DicomImageWidget.zoomOut st).pixmapItem = st.pixmapItem ∧
    (DicomImageWidget.mouseMoveEvent pos st).windowCenter = st.windowCenter ∧
    (DicomImageWidget.mouseMoveEvent pos st).windowWidth = st.windowWidth ∧
    (DicomImageWidget.mouseMoveEvent pos st).pixmapItem = st.pixmapItem ∧
    (DicomImageWidget.mousePressEvent button pos st).windowCenter = st.windowCenter ∧
    (DicomImageWidget.mousePressEvent button pos st).windowWidth = st.windowWidth ∧
    (DicomImageWidget.mousePressEvent button pos st).pixmapItem = st.pixmapItem ∧
    (DicomImageWidget.mouseReleaseEvent button st).windowCenter = st.windowCenter ∧
    (DicomImageWidget.mouseReleaseEvent button st).windowWidth = st.windowWidth ∧
    (DicomImageWidget.mouseReleaseEvent button st).pixmapItem = st.pixmapItem := by
  cases hc : st.currentPixmap <;> cases hp : st.pixmapItem <;>
    cases hd : st.isDragging <;> cases button <;>
      simp [DicomImageWidget.adjustWindowLevel, DicomImageWidget.applyWindowLevel,
        DicomImageWidget.zoomIn, DicomImageWidget.zoomOut,
        DicomImageWidget.mouseMoveEvent, DicomImageWidget.mousePressEvent,
        DicomImageWidget.mouseReleaseEvent, hc, hp, hd]

/-- C7: a source that fails to decode (missing, empty, zero-dimension or
undecodable, a null QPixmap) makes loadDicomFile a no-op on the image
widget and the series lists: only the status label reports the failure,
and the operation is a total function — no crash, no termination. -/
theorem c7_decode_failure_noop (decode : String → Option Image) (path : String)
    (st : DicomViewerWindow) (h : decode path = none) :
    (DicomViewerWindow.loadDicomFile decode path st).imageWidget = st.imageWidget ∧
    (DicomViewerWindow.loadDicomFile decode path st).seriesItems = st.seriesItems ∧
    (DicomViewerWindow.loadDicomFile decode path st).currentSeries = st.currentSeries ∧
    (DicomViewerWindow.loadDicomFile decode path st).statusLabel = "Error: Cannot load file" := by
  simp [DicomViewerWindow.loadDicomFile, h]

/-- Closed instance of c7_decode_failure_noop on a decoder that fails. -/
theorem c7_decode_failure_noop_witness :
    (DicomViewerWindow.loadDicomFile (fun _ => none) missingPath
        (DicomViewerWindow.init 640 480)).imageWidget =
      (DicomViewerWindow.init 640 480).imageWidget ∧
    (DicomViewerWindow.loadDicomFile (fun _ => none) missingPath
        (DicomViewerWindow.init 640 480)).seriesItems =
      (DicomViewerWindow.init 640 480).seriesItems ∧
    (DicomViewerWindow.loadDicomFile (fun _ => none) missingPath
        (DicomViewerWindow.init 640 480)).currentSeries =
      (DicomViewerWindow.init 640 480).currentSeries ∧
    (DicomViewerWindow.loadDicomFile (fun _ => none) missingPath
        (DicomViewerWindow.init 640 480)).statusLabel = "Error: Cannot load file" :=
  c7_decode_failure_noop (fun _ => none) missingPath (DicomViewerWindow.init 640 480) rfl

/-- C8: zooming in by 1.25 and back out by 0.8 returns the scale to its
exact original value (1.25 times 0.8 is exactly 1, so the round trip is
within any floating-point tolerance), both for the scaleFactor member and
for the anchored view transform, and the scene point shown at the anchored
viewport point is unchanged across the two operations. -/
theorem c8_zoom_roundtrip (t : ViewTransform) (px py : Rat) (st : DicomImageWidget)
    (h : t.scale ≠ 0) :
    anchoredScale (4 / 5) px py (anchoredScale (5 / 4) px py t) = t ∧
    sceneAtX px (anchoredScale (5 / 4) px py t) = sceneAtX px t ∧
    sceneAtY py (anchoredScale (5 / 4) px py t) = sceneAtY py t ∧
    (DicomImageWidget.zoomOut (DicomImageWidget.zoomIn st)).scaleFactor = st.scaleFactor ∧
    (DicomImageWidget.zoomOut (DicomImageWidget.zoomIn st)).viewScale = st.viewScale := by
  obtain ⟨s, a, b⟩ := t
  replace h : s ≠ 0 := h
  refine ⟨?_, ?_, ?_, ?_, ?_⟩
  · simp only [anchoredScale, ViewTransform.mk.injEq]
    refine ⟨by ring, by ring, by ring⟩
  · simp only [anchoredScale, sceneAtX]
    field_simp
    ring
  · simp only [anchoredScale, sceneAtY]
    field_simp
    ring
  · simp only [DicomImageWidget.zoomIn, DicomImageWidget.zoomOut]
    ring
  · simp only [DicomImageWidget.zoomIn, DicomImageWidget.zoomOut]
    ring

/-- Closed instance of c8_zoom_roundtrip at a concrete transform and
anchor point. -/
theorem c8_zoom_roundtrip_witness :
    anchoredScale (4 / 5) 10 20 (anchoredScale (5 / 4) 10 20 (ViewTransform.mk 2 3 4)) =
      ViewTransform.mk 2 3 4 ∧
    sceneAtX 10 (anchoredScale (5 / 4) 10 20 (ViewTransform.mk 2 3 4)) =
      sceneAtX 10 (ViewTransform.mk 2 3 4) ∧
    sceneAtY 20 (anchoredScale (5 / 4) 10 20 (ViewTransform.mk 2 3 4)) =
      sceneAtY 20 (ViewTransform.mk 2 3 4) ∧
    (DicomImageWidget.zoomOut (DicomImageWidget.zoomIn
        (DicomImageWidget.init 640 480))).scaleFactor =
      (DicomImageWidget.init 640 480).scaleFactor ∧
    (DicomImageWidget.zoomOut (DicomImageWidget.zoomIn
        (DicomImageWidget.init 640 480))).viewScale =
      (DicomImageWidget.init 640 480).viewScale :=
  c8_zoom_roundtrip (ViewTransform.mk 2 3 4) 10 20 (DicomImageWidget.init 640 480)
    two_ne_zero

/-- C9: the windowing engine yields a buffer of dimensions identical to
the source (same width, height, scanline count and scanline lengths) and
never mutates the source: the stored currentPixmap is byte-identical
before and after adjustWindowLevel. -/
theorem c9_same_dims_source_untouched (center width : Int) (img : Image)
    (st : DicomImageWidget) :
    (windowLevelImage center width img).width = img.width ∧
    (windowLevelImage center width img).height = img.height ∧
    (windowLevelImage center width img).rows.length = img.rows.length ∧
    (windowLevelImage center width img).rows.map List.length = img.rows.map List.length ∧
    (DicomImageWidget.adjustWindowLevel center width st).currentPixmap = st.currentPixmap := by
  refine ⟨rfl, rfl, by simp [windowLevelImage], ?_, ?_⟩
  · simp [windowLevelImage, List.map_map, Function.comp_def, List.length_map]
  · cases hc : st.currentPixmap <;> cases hp : st.pixmapItem <;>
      simp [DicomImageWidget.adjustWindowLevel, DicomImageWidget.applyWindowLevel, hc, hp]

/-- C10: with no image loaded (null stored pixmap), adjustWindowLevel
stores the new parameters and returns after the early-return guard — no
pixel processing, no change to the displayed item, no error; windowing is
then performed by the next adjustWindowLevel call once an image has been
loaded (the load itself displays the raw image without windowing it). -/
theorem c10_adjust_without_image (st : DicomImageWidget) (c1 w1 c2 w2 : Int) (img : Image)
    (h : st.currentPixmap = none) :
    DicomImageWidget.adjustWindowLevel c1 w1 st =
      { st with windowCenter := c1, windowWidth := w1 } ∧
    (DicomImageWidget.setDicomImage img
        (DicomImageWidget.adjustWindowLevel c1 w1 st)).pixmapItem = some img ∧
    (DicomImageWidget.adjustWindowLevel c2 w2
        (DicomImageWidget.setDicomImage img
          (DicomImageWidget.adjustWindowLevel c1 w1 st))).pixmapItem =
      some (windowLevelImage c2 w2 img) := by
  have h1 : DicomImageWidget.adjustWindowLevel c1 w1 st =
      { st with windowCenter := c1, windowWidth := w1 } := by
    simp [DicomImageWidget.adjustWindowLevel, DicomImageWidget.applyWindowLevel, h]
  refine ⟨h1, ?_, ?_⟩
  · rw [h1]
    rfl
  · rw [h1]
    simp [DicomImageWidget.adjustWindowLevel, DicomImageWidget.applyWindowLevel,
      DicomImageWidget.setDicomImage]

/-- Closed instance of c10_adjust_without_image starting from the freshly
constructed widget. -/
theorem c10_adjust_without_image_witness :
    DicomImageWidget.adjustWindowLevel 50 10 (DicomImageWidget.init 640 480) =
      { DicomImageWidget.init 640 480 with windowCenter := 50, windowWidth := 10 } ∧
    (DicomImageWidget.setDicomImage testImg
        (DicomImageWidget.adjustWindowLevel 50 10 (DicomImageWidget.init 640 480))).pixmapItem =
      some testImg ∧
    (DicomImageWidget.adjustWindowLevel 60 20
        (DicomImageWidget.setDicomImage testImg
          (DicomImageWidget.adjustWindowLevel 50 10 (DicomImageWidget.init 640 480)))).pixmapItem =
      some (windowLevelImage 60 20 testImg) :=
  c10_adjust_without_image (DicomImageWidget.init 640 480) 50 10 60 20 testImg rfl

end NoctisPro
